import Mathlib

/-!
Shallow embedding of `src/dev/train.py` from ALPHA-g-Experiment/reco.

The script is a CLI training driver: it checks/creates the output
directory, copies the TOML config, builds datasets/model/loss/optimizer,
writes a CSV log header, and runs `num_epochs` iterations of
train-then-evaluate, appending one CSV row per epoch and saving a
checkpoint to `model.pt` whenever the validation loss strictly improves
on the best seen so far (`best_loss` starting at `float("inf")`).

Losses are modelled as rationals; `best_loss` lives in `WithTop ℚ` so
that the initial `float("inf")` is `⊤`.  The external components
(`train_one_epoch`, `test_one_epoch`, datasets, model, loss, optimizer)
are oracles: each epoch `i` yields a pair
`(train_loss, validation_loss) = losses i`, and constructions are
recorded as uninterpreted trace events.
-/

namespace Reco

/-- An uninterpreted TOML table for `config["data"]`. -/
structure DataConfig where
  raw : String
deriving DecidableEq

/-- An uninterpreted TOML table for `config["model"]`. -/
structure ModelConfig where
  raw : String
deriving DecidableEq

/-- An uninterpreted TOML table for `config["training"]["loss"]`. -/
structure LossConfig where
  raw : String
deriving DecidableEq

/-- An uninterpreted TOML table for `config["training"]["optimizer"]`. -/
structure OptimConfig where
  raw : String
deriving DecidableEq

/-- The `config["training"]` table: the keys `train.py` reads. -/
structure TrainingConfig where
  batch_size : Nat
  num_epochs : Nat
  loss : LossConfig
  optimizer : OptimConfig
deriving DecidableEq

/-- The loaded TOML config: the sections `train.py` reads. -/
structure Config where
  data : DataConfig
  model : ModelConfig
  training : TrainingConfig
deriving DecidableEq

/-- Parsed command-line arguments of `train.py` (after the
`--output-dir` default has been applied; paths are opaque strings,
and the output directory itself is left implicit since all writes
land inside it). -/
structure Args where
  train_data : String
  val_data : String
  config : String
  force : Bool
deriving DecidableEq

/-- One row of `training_log.csv`: the header written by
`writer.writerow(["epoch", "training_loss", "validation_loss"])`,
or a data row `writer.writerow([i, train_loss, validation_loss])`. -/
inductive CsvRow where
  | header (cells : List String)
  | entry (epoch : Nat) (train_loss : ℚ) (validation_loss : ℚ)
deriving DecidableEq

/-- Content of a file in the output directory. -/
inductive FileContent where
  | bytes (s : String)
  | csv (rows : List CsvRow)
  | model (epoch : Nat)
deriving DecidableEq

/-- The observable effects of `train.py`, in program order. -/
inductive Event where
  | mkdirOutputDir
  | copyConfigFile (src : String)
  | pointCloudDataset (path : String) (cfg : DataConfig)
  | regressor (cfg : ModelConfig)
  | customLoss (cfg : LossConfig)
  | buildOptimizer (cfg : OptimConfig)
  | writeHeader (cells : List String)
  | trainOneEpoch (i : Nat)
  | testOneEpoch (i : Nat)
  | writeRow (i : Nat) (train_loss : ℚ) (validation_loss : ℚ)
  | saveModel (i : Nat)
deriving DecidableEq

/-- State threaded through the epoch loop of `train.py`. -/
structure LoopState where
  best_loss : WithTop ℚ
  rows : List (Nat × ℚ × ℚ)
  checkpoints : List Nat
  savedModel : Option Nat
  events : List Event
deriving DecidableEq

/-- Loop state right before `for i in range(num_epochs)`:
`best_loss = float("inf")`, nothing logged, nothing saved. -/
def initState : LoopState :=
  { best_loss := ⊤, rows := [], checkpoints := [], savedModel := none, events := [] }

/-- One iteration of the epoch loop (`train.py` lines 64-76):
run `train_one_epoch` then `test_one_epoch`, append the CSV row
`[i, train_loss, validation_loss]`, and when
`validation_loss < best_loss` update `best_loss` and save the
scripted model to `model.pt`. -/
def epochBody (losses : Nat → ℚ × ℚ) (s : LoopState) (i : Nat) : LoopState :=
  let train_loss := (losses i).1
  let validation_loss := (losses i).2
  let s1 : LoopState :=
    { s with
      rows := s.rows ++ [(i, train_loss, validation_loss)]
      events := s.events ++
        [Event.trainOneEpoch i, Event.testOneEpoch i,
         Event.writeRow i train_loss validation_loss] }
  if (validation_loss : WithTop ℚ) < s1.best_loss then
    { s1 with
      best_loss := (validation_loss : WithTop ℚ)
      checkpoints := s1.checkpoints ++ [i]
      savedModel := some i
      events := s1.events ++ [Event.saveModel i] }
  else
    s1

/-- The whole epoch loop `for i in range(num_epochs)`. -/
def runLoop (losses : Nat → ℚ × ℚ) (n : Nat) : LoopState :=
  (List.range n).foldl (epochBody losses) initState

/-- The header cells written before the loop. -/
def headerCells : List String := ["epoch", "training_loss", "validation_loss"]

/-- The straight-line part of `train.py` before the loop, from
`args.output_dir.mkdir` to the CSV header write, in program order. -/
def preludeEvents (a : Args) (cfg : Config) : List Event :=
  [Event.mkdirOutputDir,
   Event.copyConfigFile a.config,
   Event.pointCloudDataset a.train_data cfg.data,
   Event.pointCloudDataset a.val_data cfg.data,
   Event.regressor cfg.model,
   Event.customLoss cfg.training.loss,
   Event.buildOptimizer cfg.training.optimizer,
   Event.writeHeader headerCells]

/-- The one error `train.py` can raise on its own. -/
inductive ScriptError where
  | fileExists
deriving DecidableEq

/-- The whole script after argument parsing.  `outputDirExists` is
whether `args.output_dir.exists()` held; `cfg` is the loaded TOML;
`losses` is the oracle for the two external epoch functions.
Mirrors `train.py`: the existence check raises `FileExistsError`
before any effect; otherwise the prelude runs and then the loop. -/
def runScript (a : Args) (outputDirExists : Bool) (cfg : Config)
    (losses : Nat → ℚ × ℚ) : Except ScriptError (List Event × LoopState) :=
  if outputDirExists && !a.force then
    Except.error ScriptError.fileExists
  else
    let st := runLoop losses cfg.training.num_epochs
    Except.ok (preludeEvents a cfg ++ st.events, st)

/-- Files the run writes inside the output directory. -/
def FS : Type := String → Option FileContent

/-- Update one file. -/
def FS.update (fs : FS) (name : String) (c : FileContent) : FS :=
  fun p => if p = name then some c else fs p

/-- Current rows of `training_log.csv` (empty if absent or not a CSV). -/
def csvRows (fs : FS) : List CsvRow :=
  match fs "training_log.csv" with
  | some (FileContent.csv r) => r
  | _ => []

/-- Interpret one event on the output directory.  `src` is the byte
content of the config file named on the command line;
`shutil.copyfile` copies it verbatim to `config.toml`.  `mkdir` with
`exist_ok=True` deletes nothing; opening the log with mode `"w"`
truncates it to the header; mode `"a"` appends; `model_scripted.save`
overwrites `model.pt`. -/
def applyEvent (src : String) (fs : FS) : Event → FS
  | Event.copyConfigFile _ => fs.update "config.toml" (FileContent.bytes src)
  | Event.writeHeader cells =>
      fs.update "training_log.csv" (FileContent.csv [CsvRow.header cells])
  | Event.writeRow i t v =>
      fs.update "training_log.csv"
        (FileContent.csv (csvRows fs ++ [CsvRow.entry i t v]))
  | Event.saveModel i => fs.update "model.pt" (FileContent.model i)
  | _ => fs

/-- Interpret a trace of events, left to right. -/
def applyTrace (src : String) (fs : FS) (evts : List Event) : FS :=
  evts.foldl (applyEvent src) fs

/-- Does this event write the given file? -/
def writesTo (e : Event) (p : String) : Bool :=
  match e with
  | Event.copyConfigFile _ => p = "config.toml"
  | Event.writeHeader _ => p = "training_log.csv"
  | Event.writeRow _ _ _ => p = "training_log.csv"
  | Event.saveModel _ => p = "model.pt"
  | _ => false

/-- The output directory after a run: unchanged from `fs0` when the
script raised `FileExistsError`, otherwise the interpretation of the
emitted trace.  `src` is the byte content of the config file. -/
def finalFS (a : Args) (outputDirExists : Bool) (cfg : Config)
    (losses : Nat → ℚ × ℚ) (src : String) (fs0 : FS) : FS :=
  match runScript a outputDirExists cfg losses with
  | Except.error _ => fs0
  | Except.ok (evts, _) => applyTrace src fs0 evts

/-- Epoch `i` strictly improves: its validation loss is strictly below
every validation loss of the preceding epochs. -/
def improves (losses : Nat → ℚ × ℚ) (i : Nat) : Prop :=
  ∀ j < i, (losses i).2 < (losses j).2

instance (losses : Nat → ℚ × ℚ) (i : Nat) : Decidable (improves losses i) := by
  unfold improves
  infer_instance

/-- Minimum of the validation losses of the first `k` epochs
(`⊤` when `k = 0`). -/
def minValLoss (losses : Nat → ℚ × ℚ) (k : Nat) : WithTop ℚ :=
  (List.range k).foldl (fun acc j => min acc ((losses j).2 : WithTop ℚ)) ⊤

/-- The events one loop iteration emits. -/
def eventsOf (losses : Nat → ℚ × ℚ) (i : Nat) : List Event :=
  [Event.trainOneEpoch i, Event.testOneEpoch i,
   Event.writeRow i (losses i).1 (losses i).2] ++
    (if improves losses i then [Event.saveModel i] else [])

/-- Is this event a training or evaluation pass? -/
def isPass (e : Event) : Bool :=
  match e with
  | Event.trainOneEpoch _ => true
  | Event.testOneEpoch _ => true
  | _ => false

/-- Is this event a write to `training_log.csv`? -/
def isLogWrite (e : Event) : Bool :=
  match e with
  | Event.writeHeader _ => true
  | Event.writeRow _ _ _ => true
  | _ => false

/-- Is this event a `PointCloudDataset` construction? -/
def isDatasetCtor (e : Event) : Bool :=
  match e with
  | Event.pointCloudDataset _ _ => true
  | _ => false

/-- Is this event the construction of a dataset, the model, the loss
function, or the optimizer? -/
def isCtor (e : Event) : Bool :=
  match e with
  | Event.pointCloudDataset _ _ => true
  | Event.regressor _ => true
  | Event.customLoss _ => true
  | Event.buildOptimizer _ => true
  | _ => false

/-- Is this event a `model.pt` save? -/
def isSave (e : Event) : Bool :=
  match e with
  | Event.saveModel _ => true
  | _ => false

/-- The epoch index of a `saveModel` event, if any. -/
def saveIdx (e : Event) : Option Nat :=
  match e with
  | Event.saveModel i => some i
  | _ => none

/-! ### Concrete fixtures used to instantiate the theorems -/

/-- Sample command-line arguments (`--force` absent). -/
def wArgs : Args :=
  { train_data := "train.parquet", val_data := "val.parquet",
    config := "run_config.toml", force := false }

/-- Sample command-line arguments with `--force`. -/
def wArgsForce : Args :=
  { train_data := "train.parquet", val_data := "val.parquet",
    config := "run_config.toml", force := true }

/-- A sample config with `num_epochs = 2`. -/
def wConfig : Config :=
  { data := ⟨"d"⟩, model := ⟨"m"⟩,
    training :=
      { batch_size := 16, num_epochs := 2, loss := ⟨"l"⟩, optimizer := ⟨"o"⟩ } }

/-- A sample config with `num_epochs = 0`. -/
def wConfig0 : Config :=
  { data := ⟨"d"⟩, model := ⟨"m"⟩,
    training :=
      { batch_size := 16, num_epochs := 0, loss := ⟨"l"⟩, optimizer := ⟨"o"⟩ } }

/-- A sample loss oracle: validation losses 5, 7, 7, ... so that epoch 0
improves and epoch 1 does not. -/
def wLosses : Nat → ℚ × ℚ := fun i => ((i : ℚ), if i = 0 then (5 : ℚ) else 7)

/-- A second loss oracle: same validation losses as `wLosses`, but
different training losses. -/
def wLosses2 : Nat → ℚ × ℚ :=
  fun i => ((i : ℚ) + 1, if i = 0 then (5 : ℚ) else 7)

/-- An empty output directory. -/
def wFS : FS := fun _ => none

/-- The loop events of the sample run. -/
def wLoopEvents : List Event :=
  [Event.trainOneEpoch 0, Event.testOneEpoch 0, Event.writeRow 0 0 5,
   Event.saveModel 0,
   Event.trainOneEpoch 1, Event.testOneEpoch 1, Event.writeRow 1 1 7]

/-- The prelude events of the sample run. -/
def wPrelude : List Event :=
  [Event.mkdirOutputDir,
   Event.copyConfigFile "run_config.toml",
   Event.pointCloudDataset "train.parquet" ⟨"d"⟩,
   Event.pointCloudDataset "val.parquet" ⟨"d"⟩,
   Event.regressor ⟨"m"⟩,
   Event.customLoss ⟨"l"⟩,
   Event.buildOptimizer ⟨"o"⟩,
   Event.writeHeader ["epoch", "training_loss", "validation_loss"]]

/-- The full trace of the sample run. -/
def wEvts : List Event := wPrelude ++ wLoopEvents

/-- The final loop state of the sample run. -/
def wSt : LoopState :=
  { best_loss := ((5 : ℚ) : WithTop ℚ), rows := [(0, 0, 5), (1, 1, 7)],
    checkpoints := [0], savedModel := some 0, events := wLoopEvents }

/-! ### Basic lemmas about the epoch loop -/

theorem runLoop_succ (l : Nat → ℚ × ℚ) (n : Nat) :
    runLoop l (n + 1) = epochBody l (runLoop l n) n := by
  unfold runLoop
  rw [List.range_succ, List.foldl_append]
  rfl

theorem minValLoss_succ (l : Nat → ℚ × ℚ) (n : Nat) :
    minValLoss l (n + 1) = min (minValLoss l n) ((l n).2 : WithTop ℚ) := by
  unfold minValLoss
  rw [List.range_succ, List.foldl_append]
  rfl

theorem epochBody_eq (l : Nat → ℚ × ℚ) (s : LoopState) (i : Nat) :
    epochBody l s i =
      { best_loss := min s.best_loss (((l i).2 : WithTop ℚ))
        rows := s.rows ++ [(i, (l i).1, (l i).2)]
        checkpoints :=
          s.checkpoints ++ (if ((l i).2 : WithTop ℚ) < s.best_loss then [i] else [])
        savedModel :=
          (if ((l i).2 : WithTop ℚ) < s.best_loss then some i else s.savedModel)
        events :=
          s.events ++
            [Event.trainOneEpoch i, Event.testOneEpoch i,
             Event.writeRow i (l i).1 (l i).2] ++
            (if ((l i).2 : WithTop ℚ) < s.best_loss then [Event.saveModel i]
             else []) } := by
  by_cases h : ((l i).2 : WithTop ℚ) < s.best_loss
  · simp [epochBody, h, min_eq_right h.le]
  · simp [epochBody, h, min_eq_left (not_lt.mp h)]

theorem runLoop_best_loss (l : Nat → ℚ × ℚ) :
    ∀ n, (runLoop l n).best_loss = minValLoss l n := by
  intro n
  induction n with
  | zero => rfl
  | succ n ih =>
    rw [runLoop_succ, epochBody_eq, minValLoss_succ]
    simp [ih]

theorem lt_minValLoss_iff (l : Nat → ℚ × ℚ) (v : ℚ) :
    ∀ k, ((v : WithTop ℚ) < minValLoss l k ↔ ∀ j < k, v < (l j).2) := by
  intro k
  induction k with
  | zero => simp [minValLoss]
  | succ k ih =>
    rw [minValLoss_succ, lt_min_iff, ih, WithTop.coe_lt_coe]
    constructor
    · rintro ⟨h1, h2⟩ j hj
      rcases Nat.lt_succ_iff_lt_or_eq.mp hj with hj | hj
      · exact h1 j hj
      · exact hj ▸ h2
    · intro h
      exact ⟨fun j hj => h j (Nat.lt_succ_of_lt hj), h k (Nat.lt_succ_self k)⟩

theorem improves_iff_lt_minValLoss (l : Nat → ℚ × ℚ) (i : Nat) :
    improves l i ↔ ((l i).2 : WithTop ℚ) < minValLoss l i :=
  (lt_minValLoss_iff l (l i).2 i).symm

theorem runLoop_rows (l : Nat → ℚ × ℚ) :
    ∀ n, (runLoop l n).rows = (List.range n).map (fun i => (i, (l i).1, (l i).2)) := by
  intro n
  induction n with
  | zero => rfl
  | succ n ih =>
    rw [runLoop_succ, epochBody_eq, List.range_succ]
    simp [ih]

theorem runLoop_checkpoints (l : Nat → ℚ × ℚ) :
    ∀ n, (runLoop l n).checkpoints =
      (List.range n).filter (fun i => decide (improves l i)) := by
  intro n
  induction n with
  | zero => rfl
  | succ n ih =>
    rw [runLoop_succ, epochBody_eq, List.range_succ, List.filter_append]
    by_cases h : improves l n
    · have h2 : ((l n).2 : WithTop ℚ) < (runLoop l n).best_loss := by
        rw [runLoop_best_loss]
        exact (improves_iff_lt_minValLoss l n).mp h
      simp [ih, h, h2]
    · have h2 : ¬ ((l n).2 : WithTop ℚ) < (runLoop l n).best_loss := by
        rw [runLoop_best_loss]
        exact fun hc => h ((improves_iff_lt_minValLoss l n).mpr hc)
      simp [ih, h, h2]

theorem runLoop_savedModel_succ (l : Nat → ℚ × ℚ) (n : Nat) :
    (runLoop l (n + 1)).savedModel =
      (if improves l n then some n else (runLoop l n).savedModel) := by
  rw [runLoop_succ, epochBody_eq]
  by_cases h : improves l n
  · have h2 : ((l n).2 : WithTop ℚ) < (runLoop l n).best_loss := by
      rw [runLoop_best_loss]
      exact (improves_iff_lt_minValLoss l n).mp h
    simp [h, h2]
  · have h2 : ¬ ((l n).2 : WithTop ℚ) < (runLoop l n).best_loss := by
      rw [runLoop_best_loss]
      exact fun hc => h ((improves_iff_lt_minValLoss l n).mpr hc)
    simp [h, h2]

theorem runLoop_savedModel (l : Nat → ℚ × ℚ) :
    ∀ n, (runLoop l n).savedModel =
      ((List.range n).filter (fun i => decide (improves l i))).getLast? := by
  intro n
  induction n with
  | zero => rfl
  | succ n ih =>
    rw [runLoop_savedModel_succ, List.range_succ, List.filter_append]
    by_cases h : improves l n
    · simp [h, List.getLast?_concat]
    · simp [h, ih]

theorem runLoop_events_succ (l : Nat → ℚ × ℚ) (n : Nat) :
    (runLoop l (n + 1)).events = (runLoop l n).events ++ eventsOf l n := by
  rw [runLoop_succ, epochBody_eq]
  by_cases h : improves l n
  · have h2 : ((l n).2 : WithTop ℚ) < (runLoop l n).best_loss := by
      rw [runLoop_best_loss]
      exact (improves_iff_lt_minValLoss l n).mp h
    simp [h, h2, eventsOf]
  · have h2 : ¬ ((l n).2 : WithTop ℚ) < (runLoop l n).best_loss := by
      rw [runLoop_best_loss]
      exact fun hc => h ((improves_iff_lt_minValLoss l n).mpr hc)
    simp [h, h2, eventsOf]

/-! ### Filesystem interpretation lemmas -/

theorem applyTrace_append (src : String) (fs : FS) (e1 e2 : List Event) :
    applyTrace src fs (e1 ++ e2) = applyTrace src (applyTrace src fs e1) e2 :=
  List.foldl_append _ _ _ _

theorem applyEvent_not_writes (src : String) (fs : FS) (e : Event) (p : String)
    (h : writesTo e p = false) : applyEvent src fs e p = fs p := by
  cases e <;> simp [writesTo] at h ⊢ <;> simp [applyEvent, FS.update, h]

theorem applyTrace_frame (src : String) (p : String) :
    ∀ (evts : List Event) (fs : FS),
      (∀ e ∈ evts, writesTo e p = false) → applyTrace src fs evts p = fs p := by
  intro evts
  induction evts with
  | nil => intro fs _; rfl
  | cons e t ih =>
    intro fs h
    have ht : applyTrace src fs (e :: t) = applyTrace src (applyEvent src fs e) t := rfl
    rw [ht, ih (applyEvent src fs e) (fun x hx => h x (List.mem_cons_of_mem e hx)),
      applyEvent_not_writes src fs e p (h e (List.mem_cons_self e t))]

theorem writesTo_mem_targets (e : Event) (p : String) (h : writesTo e p = true) :
    p = "config.toml" ∨ p = "training_log.csv" ∨ p = "model.pt" := by
  cases e <;> simp [writesTo] at h <;> simp [h]

theorem runLoop_events (l : Nat → ℚ × ℚ) :
    ∀ n, (runLoop l n).events = (List.range n).flatMap (eventsOf l) := by
  intro n
  induction n with
  | zero => rfl
  | succ n ih =>
    rw [runLoop_events_succ, List.range_succ, ih]
    simp

theorem runScript_eq_ok (a : Args) (ex : Bool) (cfg : Config)
    (losses : Nat → ℚ × ℚ) (evts : List Event) (st : LoopState) :
    runScript a ex cfg losses = Except.ok (evts, st) ↔
      ((ex = false ∨ a.force = true) ∧
        evts = preludeEvents a cfg ++ (runLoop losses cfg.training.num_epochs).events ∧
        st = runLoop losses cfg.training.num_epochs) := by
  rcases a with ⟨t, v, c, f⟩
  cases ex <;> cases f <;> simp [runScript, eq_comm]

theorem runScript_eq_error (a : Args) (ex : Bool) (cfg : Config)
    (losses : Nat → ℚ × ℚ) :
    runScript a ex cfg losses = Except.error ScriptError.fileExists ↔
      (ex = true ∧ a.force = false) := by
  rcases a with ⟨t, v, c, f⟩
  cases ex <;> cases f <;> simp [runScript]

theorem writesTo_false_of_ne (e : Event) (p : String)
    (h1 : p ≠ "config.toml") (h2 : p ≠ "training_log.csv")
    (h3 : p ≠ "model.pt") : writesTo e p = false := by
  cases hw : writesTo e p with
  | false => rfl
  | true =>
    rcases writesTo_mem_targets e p hw with h | h | h
    · exact absurd h h1
    · exact absurd h h2
    · exact absurd h h3

theorem applyTrace_prelude (src : String) (fs0 : FS) (a : Args) (cfg : Config) :
    applyTrace src fs0 (preludeEvents a cfg) =
      (fs0.update "config.toml" (FileContent.bytes src)).update
        "training_log.csv" (FileContent.csv [CsvRow.header headerCells]) := rfl

theorem eventsOf_not_writes_config (l : Nat → ℚ × ℚ) (i : Nat) :
    ∀ e ∈ eventsOf l i, writesTo e "config.toml" = false := by
  intro e he
  by_cases him : improves l i
  · simp [eventsOf, him] at he
    rcases he with rfl | rfl | rfl | rfl <;> rfl
  · simp [eventsOf, him] at he
    rcases he with rfl | rfl | rfl <;> rfl

theorem runLoop_events_not_writes_config (l : Nat → ℚ × ℚ) (n : Nat) :
    ∀ e ∈ (runLoop l n).events, writesTo e "config.toml" = false := by
  intro e he
  rw [runLoop_events] at he
  rcases List.mem_flatMap.mp he with ⟨i, _, hei⟩
  exact eventsOf_not_writes_config l i e hei

theorem applyTrace_runLoop_csv (src : String) (l : Nat → ℚ × ℚ) :
    ∀ (n : Nat) (fs : FS) (r : List CsvRow),
      fs "training_log.csv" = some (FileContent.csv r) →
      applyTrace src fs (runLoop l n).events "training_log.csv" =
        some (FileContent.csv
          (r ++ (List.range n).map (fun i => CsvRow.entry i (l i).1 (l i).2))) := by
  intro n
  induction n with
  | zero =>
    intro fs r h
    simpa [runLoop, initState, applyTrace] using h
  | succ n ih =>
    intro fs r h
    rw [runLoop_events_succ, applyTrace_append]
    have hcur := ih fs r h
    simp only [applyTrace] at hcur
    by_cases him : improves l n
    · simp [eventsOf, him, applyTrace, applyEvent, FS.update, csvRows, hcur,
        List.range_succ]
    · simp [eventsOf, him, applyTrace, applyEvent, FS.update, csvRows, hcur,
        List.range_succ]

theorem applyTrace_runLoop_model (src : String) (l : Nat → ℚ × ℚ) :
    ∀ (n : Nat) (fs : FS),
      applyTrace src fs (runLoop l n).events "model.pt" =
        (match (runLoop l n).savedModel with
         | some i => some (FileContent.model i)
         | none => fs "model.pt") := by
  intro n
  induction n with
  | zero =>
    intro fs
    rfl
  | succ n ih =>
    intro fs
    rw [runLoop_events_succ, applyTrace_append, runLoop_savedModel_succ]
    have ihm := ih fs
    simp only [applyTrace] at ihm
    by_cases him : improves l n
    · simp [eventsOf, him, applyTrace, applyEvent, FS.update]
    · simp [eventsOf, him, applyTrace, applyEvent, FS.update, ihm]

theorem flatMap_singleton_map {α β : Type} (L : List α) (f : α → β) :
    L.flatMap (fun a => [f a]) = L.map f := by
  induction L with
  | nil => rfl
  | cons x t ih => simp [List.flatMap_cons, ih]

theorem saveModel_mem_eventsOf (l : Nat → ℚ × ℚ) (i j : Nat) :
    Event.saveModel i ∈ eventsOf l j ↔ (improves l j ∧ i = j) := by
  by_cases hj : improves l j <;> simp [eventsOf, hj]

theorem eventsOf_filter_pass (l : Nat → ℚ × ℚ) (i : Nat) :
    (eventsOf l i).filter isPass =
      [Event.trainOneEpoch i, Event.testOneEpoch i] := by
  by_cases him : improves l i <;> simp [eventsOf, him, isPass]

theorem eventsOf_filter_log (l : Nat → ℚ × ℚ) (i : Nat) :
    (eventsOf l i).filter isLogWrite = [Event.writeRow i (l i).1 (l i).2] := by
  by_cases him : improves l i <;> simp [eventsOf, him, isLogWrite]

theorem eventsOf_filter_dataset (l : Nat → ℚ × ℚ) (i : Nat) :
    (eventsOf l i).filter isDatasetCtor = [] := by
  by_cases him : improves l i <;> simp [eventsOf, him, isDatasetCtor]

/-! ### The claims -/

/-- C7: Best-loss tracking invariant: at every point of the epoch loop,
`best_loss` equals the minimum of the validation losses of the completed
epochs so far (`⊤`, the embedding of `float("inf")`, before the first
epoch), and consequently `best_loss` is non-increasing across epochs. -/
theorem best_loss_tracking (losses : Nat → ℚ × ℚ) (n : Nat) :
    (runLoop losses n).best_loss = minValLoss losses n ∧
    (runLoop losses (n + 1)).best_loss ≤ (runLoop losses n).best_loss := by
  refine ⟨runLoop_best_loss losses n, ?_⟩
  rw [runLoop_best_loss, runLoop_best_loss, minValLoss_succ]
  exact min_le_left _ _

/-- C2: The decision whether to checkpoint depends only on the sequence
of validation losses: two runs with the same validation losses checkpoint
at the same epochs, regardless of training losses. -/
theorem checkpoint_depends_only_on_validation_loss (l1 l2 : Nat → ℚ × ℚ)
    (n : Nat) (h : ∀ i, (l1 i).2 = (l2 i).2) :
    (runLoop l1 n).checkpoints = (runLoop l2 n).checkpoints := by
  have hiff : ∀ i, (improves l1 i ↔ improves l2 i) := by
    intro i
    constructor
    · intro hi j hj
      rw [← h i, ← h j]
      exact hi j hj
    · intro hi j hj
      rw [h i, h j]
      exact hi j hj
  rw [runLoop_checkpoints, runLoop_checkpoints]
  exact List.filter_congr fun i _ => decide_eq_decide.mpr (hiff i)

/-- C2 witness: two concrete loss oracles with equal validation losses
and different training losses checkpoint at the same epochs. -/
theorem checkpoint_depends_only_on_validation_loss_witness :
    (∀ i, (wLosses i).2 = (wLosses2 i).2) ∧
    (runLoop wLosses 2).checkpoints = (runLoop wLosses2 2).checkpoints :=
  ⟨fun _ => rfl,
   checkpoint_depends_only_on_validation_loss wLosses wLosses2 2 fun _ => rfl⟩

/-- C1: Checkpoint-on-improvement: a successful run saves `model.pt` at
epoch `i` if and only if `i` is an epoch and its validation loss is
strictly below every preceding validation loss; after the run, `model.pt`
holds the model of the last such epoch (and is untouched if there was
none). -/
theorem checkpoint_on_improvement (a : Args) (ex : Bool) (cfg : Config)
    (losses : Nat → ℚ × ℚ) (evts : List Event) (st : LoopState)
    (h : runScript a ex cfg losses = Except.ok (evts, st)) :
    (∀ i, Event.saveModel i ∈ evts ↔
        (i < cfg.training.num_epochs ∧ improves losses i)) ∧
    st.savedModel =
      ((List.range cfg.training.num_epochs).filter
        (fun i => decide (improves losses i))).getLast? ∧
    (∀ (src : String) (fs0 : FS),
      applyTrace src fs0 evts "model.pt" =
        (match st.savedModel with
         | some i => some (FileContent.model i)
         | none => fs0 "model.pt")) := by
  obtain ⟨-, he, hst⟩ := (runScript_eq_ok a ex cfg losses evts st).mp h
  subst he
  subst hst
  refine ⟨?_, runLoop_savedModel losses _, ?_⟩
  · intro i
    rw [List.mem_append, runLoop_events]
    constructor
    · rintro (hp | hl)
      · exact absurd hp (by simp [preludeEvents])
      · rcases List.mem_flatMap.mp hl with ⟨j, hj, hej⟩
        rcases (saveModel_mem_eventsOf losses i j).mp hej with ⟨him, rfl⟩
        exact ⟨List.mem_range.mp hj, him⟩
    · rintro ⟨hin, him⟩
      exact Or.inr (List.mem_flatMap.mpr
        ⟨i, List.mem_range.mpr hin,
         (saveModel_mem_eventsOf losses i i).mpr ⟨him, rfl⟩⟩)
  · intro src fs0
    rw [applyTrace_append, applyTrace_runLoop_model]
    cases hsm : (runLoop losses cfg.training.num_epochs).savedModel with
    | none => simp [applyTrace_prelude, FS.update]
    | some i => simp

/-- C1 witness: the sample run checkpoints at epoch 0 and `model.pt`
ends up holding the epoch-0 model. -/
theorem checkpoint_on_improvement_witness :
    (Event.saveModel 0 ∈ wEvts ↔
      (0 < wConfig.training.num_epochs ∧ improves wLosses 0)) ∧
    wSt.savedModel =
      ((List.range wConfig.training.num_epochs).filter
        (fun i => decide (improves wLosses i))).getLast? ∧
    applyTrace "bytes" wFS wEvts "model.pt" = some (FileContent.model 0) :=
  ⟨(checkpoint_on_improvement wArgs false wConfig wLosses wEvts wSt rfl).1 0,
   (checkpoint_on_improvement wArgs false wConfig wLosses wEvts wSt rfl).2.1,
   (checkpoint_on_improvement wArgs false wConfig wLosses wEvts wSt rfl).2.2
     "bytes" wFS⟩

/-- C3: The main loop runs exactly `config["training"]["num_epochs"]`
iterations, and in every iteration the training pass comes before the
evaluation pass: the passes in the trace are exactly
train 0, test 0, train 1, test 1, ..., in order. -/
theorem train_before_test_each_epoch (a : Args) (ex : Bool) (cfg : Config)
    (losses : Nat → ℚ × ℚ) (evts : List Event) (st : LoopState)
    (h : runScript a ex cfg losses = Except.ok (evts, st)) :
    evts.filter isPass =
      (List.range cfg.training.num_epochs).flatMap
        (fun i => [Event.trainOneEpoch i, Event.testOneEpoch i]) := by
  obtain ⟨-, he, -⟩ := (runScript_eq_ok a ex cfg losses evts st).mp h
  subst he
  rw [List.filter_append, runLoop_events, List.filter_flatMap]
  have hpre : (preludeEvents a cfg).filter isPass = [] := rfl
  rw [hpre, List.nil_append]
  simp only [eventsOf_filter_pass]

/-- C3 witness: the sample run's passes are train 0, test 0, train 1,
test 1. -/
theorem train_before_test_each_epoch_witness :
    wEvts.filter isPass =
      (List.range wConfig.training.num_epochs).flatMap
        (fun i => [Event.trainOneEpoch i, Event.testOneEpoch i]) :=
  train_before_test_each_epoch wArgs false wConfig wLosses wEvts wSt rfl

/-- C4: CSV logging: the log writes of a successful run are exactly one
header row `["epoch", "training_loss", "validation_loss"]` followed by
one row `[i, train_loss, validation_loss]` per epoch, in epoch order;
consequently `training_log.csv` ends up holding the header followed by
the `num_epochs` data rows with epoch indices `0 .. num_epochs - 1`. -/
theorem csv_log_after_each_epoch (a : Args) (ex : Bool) (cfg : Config)
    (losses : Nat → ℚ × ℚ) (evts : List Event) (st : LoopState)
    (h : runScript a ex cfg losses = Except.ok (evts, st)) :
    evts.filter isLogWrite =
      Event.writeHeader ["epoch", "training_loss", "validation_loss"] ::
        (List.range cfg.training.num_epochs).map
          (fun i => Event.writeRow i (losses i).1 (losses i).2) ∧
    (∀ (src : String) (fs0 : FS),
      applyTrace src fs0 evts "training_log.csv" =
        some (FileContent.csv
          (CsvRow.header ["epoch", "training_loss", "validation_loss"] ::
            (List.range cfg.training.num_epochs).map
              (fun i => CsvRow.entry i (losses i).1 (losses i).2)))) := by
  obtain ⟨-, he, -⟩ := (runScript_eq_ok a ex cfg losses evts st).mp h
  subst he
  constructor
  · rw [List.filter_append, runLoop_events, List.filter_flatMap]
    have hpre : (preludeEvents a cfg).filter isLogWrite =
        [Event.writeHeader headerCells] := rfl
    rw [hpre]
    simp only [eventsOf_filter_log]
    rw [flatMap_singleton_map]
    rfl
  · intro src fs0
    rw [applyTrace_append]
    have hbase :
        applyTrace src fs0 (preludeEvents a cfg) "training_log.csv" =
          some (FileContent.csv [CsvRow.header headerCells]) := rfl
    simpa using
      applyTrace_runLoop_csv src losses cfg.training.num_epochs _
        [CsvRow.header headerCells] hbase

/-- C4 witness: the sample run's log is the header plus rows for epochs
0 and 1. -/
theorem csv_log_after_each_epoch_witness :
    wEvts.filter isLogWrite =
      Event.writeHeader ["epoch", "training_loss", "validation_loss"] ::
        (List.range wConfig.training.num_epochs).map
          (fun i => Event.writeRow i (wLosses i).1 (wLosses i).2) ∧
    applyTrace "bytes" wFS wEvts "training_log.csv" =
      some (FileContent.csv
        (CsvRow.header ["epoch", "training_loss", "validation_loss"] ::
          (List.range wConfig.training.num_epochs).map
            (fun i => CsvRow.entry i (wLosses i).1 (wLosses i).2))) :=
  ⟨(csv_log_after_each_epoch wArgs false wConfig wLosses wEvts wSt rfl).1,
   (csv_log_after_each_epoch wArgs false wConfig wLosses wEvts wSt rfl).2
     "bytes" wFS⟩

/-- C5: Single existence check: the script raises `FileExistsError` if
and only if the output directory exists and `--force` was not given, and
in that case it performs no writes; there is no other failure path. -/
theorem single_existence_check (a : Args) (ex : Bool) (cfg : Config)
    (losses : Nat → ℚ × ℚ) :
    (runScript a ex cfg losses = Except.error ScriptError.fileExists ↔
      (ex = true ∧ a.force = false)) ∧
    (∀ (src : String) (fs0 : FS), ex = true → a.force = false →
      finalFS a ex cfg losses src fs0 = fs0) := by
  refine ⟨runScript_eq_error a ex cfg losses, ?_⟩
  intro src fs0 hex hf
  unfold finalFS
  rw [(runScript_eq_error a ex cfg losses).mpr ⟨hex, hf⟩]

/-- C5 witness: with an existing output directory and no `--force`, the
sample run raises and leaves the directory untouched. -/
theorem single_existence_check_witness :
    runScript wArgs true wConfig wLosses =
      Except.error ScriptError.fileExists ∧
    finalFS wArgs true wConfig wLosses "bytes" wFS = wFS :=
  ⟨(single_existence_check wArgs true wConfig wLosses).1.mpr ⟨rfl, rfl⟩,
   (single_existence_check wArgs true wConfig wLosses).2 "bytes" wFS rfl rfl⟩

/-- C6: Paired dataset loading: a successful run constructs exactly two
`PointCloudDataset`s, both with the `config["data"]` section, differing
only in the data path: `train_data` first, then `val_data`. -/
theorem paired_dataset_loading (a : Args) (ex : Bool) (cfg : Config)
    (losses : Nat → ℚ × ℚ) (evts : List Event) (st : LoopState)
    (h : runScript a ex cfg losses = Except.ok (evts, st)) :
    evts.filter isDatasetCtor =
      [Event.pointCloudDataset a.train_data cfg.data,
       Event.pointCloudDataset a.val_data cfg.data] := by
  obtain ⟨-, he, -⟩ := (runScript_eq_ok a ex cfg losses evts st).mp h
  subst he
  rw [List.filter_append, runLoop_events, List.filter_flatMap]
  simp only [eventsOf_filter_dataset]
  simp [preludeEvents, isDatasetCtor]

/-- C6 witness: the sample run constructs the two datasets from the same
`data` section. -/
theorem paired_dataset_loading_witness :
    wEvts.filter isDatasetCtor =
      [Event.pointCloudDataset wArgs.train_data wConfig.data,
       Event.pointCloudDataset wArgs.val_data wConfig.data] :=
  paired_dataset_loading wArgs false wConfig wLosses wEvts wSt rfl

/-- C8: With `--force`, the run proceeds even if the output directory
exists, and the directory is not cleared: any pre-existing file other
than `config.toml`, `training_log.csv` and `model.pt` is left
unchanged. -/
theorem force_preserves_other_files (a : Args) (ex : Bool) (cfg : Config)
    (losses : Nat → ℚ × ℚ) (src : String) (fs0 : FS) (p : String)
    (hf : a.force = true) (h1 : p ≠ "config.toml")
    (h2 : p ≠ "training_log.csv") (h3 : p ≠ "model.pt") :
    runScript a ex cfg losses =
      Except.ok
        (preludeEvents a cfg ++
          (runLoop losses cfg.training.num_epochs).events,
         runLoop losses cfg.training.num_epochs) ∧
    finalFS a ex cfg losses src fs0 p = fs0 p := by
  have hok : runScript a ex cfg losses =
      Except.ok
        (preludeEvents a cfg ++
          (runLoop losses cfg.training.num_epochs).events,
         runLoop losses cfg.training.num_epochs) :=
    (runScript_eq_ok a ex cfg losses _ _).mpr ⟨Or.inr hf, rfl, rfl⟩
  refine ⟨hok, ?_⟩
  unfold finalFS
  rw [hok]
  exact applyTrace_frame src p _ fs0
    (fun e _ => writesTo_false_of_ne e p h1 h2 h3)

/-- C8 witness: a forced sample run on an existing directory leaves an
unrelated file `other.txt` unchanged. -/
theorem force_preserves_other_files_witness :
    wArgsForce.force = true ∧
    "other.txt" ≠ "config.toml" ∧
    "other.txt" ≠ "training_log.csv" ∧
    "other.txt" ≠ "model.pt" ∧
    finalFS wArgsForce true wConfig wLosses "bytes" wFS "other.txt" =
      wFS "other.txt" :=
  ⟨rfl, by decide, by decide, by decide,
   (force_preserves_other_files wArgsForce true wConfig wLosses "bytes" wFS
      "other.txt" rfl (by decide) (by decide) (by decide)).2⟩

/-- C9: Zero-epoch edge case: with `num_epochs = 0` the loop body never
runs: no training or evaluation pass, no data row, the log holds only
the header, and `model.pt` is never written. -/
theorem zero_epochs_only_header (a : Args) (ex : Bool) (cfg : Config)
    (losses : Nat → ℚ × ℚ) (evts : List Event) (st : LoopState)
    (h : runScript a ex cfg losses = Except.ok (evts, st))
    (h0 : cfg.training.num_epochs = 0) :
    evts.filter isPass = [] ∧
    evts.filter isSave = [] ∧
    st.rows = [] ∧
    (∀ (src : String) (fs0 : FS),
      applyTrace src fs0 evts "training_log.csv" =
        some (FileContent.csv
          [CsvRow.header ["epoch", "training_loss", "validation_loss"]]) ∧
      applyTrace src fs0 evts "model.pt" = fs0 "model.pt") := by
  obtain ⟨-, he, hst⟩ := (runScript_eq_ok a ex cfg losses evts st).mp h
  subst he
  subst hst
  rw [h0]
  refine ⟨rfl, rfl, rfl, ?_⟩
  intro src fs0
  exact ⟨rfl, rfl⟩

/-- C9 witness: a run with the zero-epoch sample config produces only
the prelude, an empty log body, and no checkpoint. -/
theorem zero_epochs_only_header_witness :
    runScript wArgs false wConfig0 wLosses = Except.ok (wPrelude, initState) ∧
    wPrelude.filter isPass = [] ∧
    wPrelude.filter isSave = [] ∧
    initState.rows = [] ∧
    applyTrace "bytes" wFS wPrelude "training_log.csv" =
      some (FileContent.csv
        [CsvRow.header ["epoch", "training_loss", "validation_loss"]]) ∧
    applyTrace "bytes" wFS wPrelude "model.pt" = wFS "model.pt" :=
  ⟨rfl,
   (zero_epochs_only_header wArgs false wConfig0 wLosses wPrelude initState
      rfl rfl).1,
   (zero_epochs_only_header wArgs false wConfig0 wLosses wPrelude initState
      rfl rfl).2.1,
   (zero_epochs_only_header wArgs false wConfig0 wLosses wPrelude initState
      rfl rfl).2.2.1,
   ((zero_epochs_only_header wArgs false wConfig0 wLosses wPrelude initState
      rfl rfl).2.2.2 "bytes" wFS).1,
   ((zero_epochs_only_header wArgs false wConfig0 wLosses wPrelude initState
      rfl rfl).2.2.2 "bytes" wFS).2⟩

/-- C10: Config preservation: in a successful run, every construction of
a dataset, the model, the loss function, or the optimizer is preceded in
the trace by the config copy, and `config.toml` ends up holding the
source config bytes verbatim. -/
theorem config_copied_before_construction (a : Args) (ex : Bool)
    (cfg : Config) (losses : Nat → ℚ × ℚ) (evts : List Event)
    (st : LoopState) (h : runScript a ex cfg losses = Except.ok (evts, st)) :
    (∀ (p : List Event) (e : Event) (rest : List Event),
        evts = p ++ e :: rest → isCtor e = true →
        Event.copyConfigFile a.config ∈ p) ∧
    (∀ (src : String) (fs0 : FS),
      applyTrace src fs0 evts "config.toml" =
        some (FileContent.bytes src)) := by
  obtain ⟨-, he, -⟩ := (runScript_eq_ok a ex cfg losses evts st).mp h
  subst he
  constructor
  · intro p e rest heq hctor
    cases p with
    | nil =>
      simp only [preludeEvents, List.cons_append, List.nil_append] at heq
      injection heq with hh _
      rw [← hh] at hctor
      simp [isCtor] at hctor
    | cons x p1 =>
      cases p1 with
      | nil =>
        simp only [preludeEvents, List.cons_append, List.nil_append] at heq
        injection heq with _ hh
        injection hh with hh2 _
        rw [← hh2] at hctor
        simp [isCtor] at hctor
      | cons y p2 =>
        simp only [preludeEvents, List.cons_append] at heq
        injection heq with _ hh
        injection hh with hh2 _
        rw [← hh2]
        exact List.mem_cons_of_mem x (List.mem_cons_self _ _)
  · intro src fs0
    rw [applyTrace_append,
      applyTrace_frame src "config.toml" _ _
        (runLoop_events_not_writes_config losses _)]
    rfl

/-- C10 witness: in the sample run the config copy precedes the first
dataset construction, and `config.toml` holds the config bytes. -/
theorem config_copied_before_construction_witness :
    Event.copyConfigFile wArgs.config ∈
      [Event.mkdirOutputDir, Event.copyConfigFile "run_config.toml"] ∧
    applyTrace "bytes" wFS wEvts "config.toml" =
      some (FileContent.bytes "bytes") :=
  ⟨(config_copied_before_construction wArgs false wConfig wLosses wEvts wSt
      rfl).1
      [Event.mkdirOutputDir, Event.copyConfigFile "run_config.toml"]
      (Event.pointCloudDataset "train.parquet" ⟨"d"⟩)
      [Event.pointCloudDataset "val.parquet" ⟨"d"⟩,
       Event.regressor ⟨"m"⟩,
       Event.customLoss ⟨"l"⟩,
       Event.buildOptimizer ⟨"o"⟩,
       Event.writeHeader ["epoch", "training_loss", "validation_loss"],
       Event.trainOneEpoch 0, Event.testOneEpoch 0, Event.writeRow 0 0 5,
       Event.saveModel 0,
       Event.trainOneEpoch 1, Event.testOneEpoch 1, Event.writeRow 1 1 7]
      rfl rfl,
   (config_copied_before_construction wArgs false wConfig wLosses wEvts wSt
      rfl).2 "bytes" wFS⟩

end Reco
